import Mathlib

/-!
Verification development for the Vue 3 + Element Plus admin dashboard of this
repository.  The definitions below are a shallow embedding of the view-model
layer of the three components the specification describes:

* the cluster list view (search form, `filteredData`, `tableData`, pagination
  state, selection tracking, batch delete) — `ClusterList` namespace;
* the cluster detail view (record resolution by identifier, the not-found
  branch, the tabbed sub-views) — `ClusterDetail` namespace;
* the dashboard panel (loading flag around `refreshData`, the auto-refresh
  interval timer) — `Dashboard` namespace.

JavaScript semantics that matter here are made explicit: an empty string is
falsy (`if (searchForm.value.name)` skips the filter exactly when the string
is empty, and `map[status] || 'info'` falls back to `'info'` both when the
key is absent and when the stored value is the empty string);
`String.prototype.includes` is substring containment; `Array.prototype.slice
(start, start + n)` is `drop start` followed by `take n`; `setInterval` /
`clearInterval` are modelled by an explicit world of active timer ids.
-/

/-- The `ClusterInfo` from `types/business.ts`.  `status` is one of
`running | stopped | error | pending` at the type level in TS but is compared
as a plain string by the filtering code, so it is embedded as `String`.
The TS keyword-clashing field `namespace` is written `«namespace»`. -/
structure ClusterInfo where
  id : String
  name : String
  version : String
  status : String
  nodeCount : Nat
  podCount : Nat
  «namespace» : String
  apiServer : String
  createdAt : String
  cpuUsage : Float
  memoryUsage : Float
  diskUsage : Float
  labels : List (String × String)
  description : String

/-- The `NodeInfo` from `types/business.ts`. -/
structure NodeInfo where
  name : String
  status : String
  role : String
  ip : String
  os : String
  kubeletVersion : String
  cpu : String
  memory : String

/-- The `PodInfo` from `types/business.ts`. -/
structure PodInfo where
  name : String
  «namespace» : String
  status : String
  restarts : Nat
  age : String
  node : String
  ip : String

/-- The `EventInfo` from `types/business.ts` (`type` is `'Normal' | 'Warning'`). -/
structure EventInfo where
  type : String
  reason : String
  message : String
  timestamp : String

/-- Substring containment on character lists: JavaScript
`String.prototype.includes` semantics (the empty needle is contained in
every haystack). -/
def charsContain (sub : List Char) : List Char → Bool
  | [] => sub.isEmpty
  | c :: t => sub.isPrefixOf (c :: t) || charsContain sub t

/-- JavaScript `s.includes(sub)`. -/
def jsIncludes (s sub : String) : Bool :=
  charsContain sub.data s.data

/-- JavaScript `s.toLowerCase()` (ASCII case folding, character by
character). -/
def strToLower (s : String) : String :=
  String.mk (s.data.map Char.toLower)

namespace ClusterList

/-- The `searchForm` ref of the cluster list view: a name substring and a
status string (empty string means "no filter", matching JS falsiness). -/
structure SearchForm where
  name : String
  status : String
deriving DecidableEq

/-- The `filteredData` computed of the list view: start from the full collection,
apply the name filter when `searchForm.name` is truthy (non-empty), then the
status filter when `searchForm.status` is truthy. -/
def filteredData (mockClusters : List ClusterInfo) (searchForm : SearchForm) :
    List ClusterInfo :=
  let data := mockClusters
  let data :=
    if searchForm.name ≠ "" then
      data.filter (fun item =>
        jsIncludes (strToLower item.name) (strToLower searchForm.name))
    else data
  let data :=
    if searchForm.status ≠ "" then
      data.filter (fun item => item.status == searchForm.status)
    else data
  data

/-- The `total` computed: count of records passing the filter. -/
def total (mockClusters : List ClusterInfo) (searchForm : SearchForm) : Nat :=
  (filteredData mockClusters searchForm).length

/-- The `tableData` computed: `filteredData.slice(start, start + pageSize)` with
`start = (currentPage - 1) * pageSize`. -/
def tableData (mockClusters : List ClusterInfo) (searchForm : SearchForm)
    (currentPage pageSize : Nat) : List ClusterInfo :=
  ((filteredData mockClusters searchForm).drop ((currentPage - 1) * pageSize)).take
    pageSize

end ClusterList

/-- C1: a record is in `filteredData` iff it is in the collection, passes the
(case-insensitive substring) name predicate or the name filter is empty, and
passes the exact status predicate or the status filter is empty; the two
predicates are combined with logical AND. -/
theorem ClusterList.mem_filteredData_iff
    (mockClusters : List ClusterInfo) (f : ClusterList.SearchForm)
    (R : ClusterInfo) :
    R ∈ ClusterList.filteredData mockClusters f ↔
      R ∈ mockClusters ∧
      (f.name = "" ∨ jsIncludes (strToLower R.name) (strToLower f.name) = true) ∧
      (f.status = "" ∨ R.status = f.status) := by
  unfold ClusterList.filteredData
  by_cases hn : f.name = "" <;> by_cases hs : f.status = "" <;>
    simp [hn, hs, List.mem_filter, and_assoc] <;> tauto

/-- A sample record used to instantiate universally quantified theorems on
concrete inputs. -/
def sampleCluster : ClusterInfo :=
  { id := "c-1", name := "prod-cluster-01", version := "v1.28.2",
    status := "running", nodeCount := 3, podCount := 10,
    «namespace» := "default", apiServer := "https://10.0.0.1:6443",
    createdAt := "2024-01-01 00:00:00", cpuUsage := 62.5, memoryUsage := 71.2,
    diskUsage := 45.0, labels := [("env", "prod")], description := "sample" }

/-- C2: the visible page is the slice of the filtered list from
`(page-1)*pageSize`, its length never exceeds `pageSize`, an out-of-range
page yields `[]` rather than an error, and with 25 matching records and page
size 10 pages 1, 3 and 4 hold 10, 5 and 0 records. -/
theorem ClusterList.tableData_slice (mockClusters : List ClusterInfo)
    (f : ClusterList.SearchForm) (p s : Nat) :
    ClusterList.tableData mockClusters f p s =
      ((ClusterList.filteredData mockClusters f).drop ((p - 1) * s)).take s ∧
    (ClusterList.tableData mockClusters f p s).length ≤ s ∧
    (ClusterList.total mockClusters f ≤ (p - 1) * s →
      ClusterList.tableData mockClusters f p s = []) ∧
    (mockClusters.length = 25 → f = ⟨"", ""⟩ → s = 10 →
      (ClusterList.tableData mockClusters f 1 s).length = 10 ∧
      (ClusterList.tableData mockClusters f 3 s).length = 5 ∧
      (ClusterList.tableData mockClusters f 4 s).length = 0) := by
  refine ⟨rfl, List.length_take_le _ _, ?_, ?_⟩
  · intro h
    have h' : (ClusterList.filteredData mockClusters f).length ≤ (p - 1) * s := h
    unfold ClusterList.tableData
    rw [List.drop_eq_nil_of_le h']
    simp
  · intro h25 hf hs10
    subst hf; subst hs10
    have hfd : ClusterList.filteredData mockClusters ⟨"", ""⟩ = mockClusters := by
      simp [ClusterList.filteredData]
    refine ⟨?_, ?_, ?_⟩ <;>
      simp [ClusterList.tableData, hfd, List.length_take, List.length_drop, h25] <;>
      omega

/-- Witness for `ClusterList.tableData_slice` on a concrete collection of 25
records: page 3 at page size 10 holds exactly 5 records. -/
theorem ClusterList.tableData_slice_witness :
    (ClusterList.tableData (List.replicate 25 sampleCluster) ⟨"", ""⟩ 3 10).length = 5 := by
  have h := ClusterList.tableData_slice (List.replicate 25 sampleCluster) ⟨"", ""⟩ 3 10
  exact (h.2.2.2 (by simp) rfl rfl).2.1

namespace ClusterList

/-- The reactive state of the cluster list view (`searchForm`, `currentPage`,
`pageSize`, `loading`, `selectedRows`). -/
structure ListViewState where
  searchForm : SearchForm
  currentPage : Nat
  pageSize : Nat
  loading : Bool
  selectedRows : List ClusterInfo

/-- User-facing side effects emitted by the list-view handlers
(`ElMessage.warning/success/info`, the `ElMessageBox.confirm` dialog, and a
backing delete call — the last is never emitted by this code, which only
simulates deletion). -/
inductive Effect where
  | warning (msg : String)
  | confirm (msg : String)
  | success (msg : String)
  | info (msg : String)
  | deleteCall (id : String)

/-- Typing in the name input: the `v-model="searchForm.name"` binding mutates
the criteria directly (no page reset). -/
def setNameFilter (st : ListViewState) (v : String) : ListViewState :=
  { st with searchForm := { st.searchForm with name := v } }

/-- Selecting a status in the dropdown: the `v-model="searchForm.status"`
binding mutates the criteria directly; the `el-select` has no `@change`
handler, so nothing else runs. -/
def setStatusFilter (st : ListViewState) (v : String) : ListViewState :=
  { st with searchForm := { st.searchForm with status := v } }

/-- The `handleSearch`: sets `currentPage` to 1 and `loading` to true (the
300 ms timeout that clears `loading` is `handleSearchTimeout`). -/
def handleSearch (st : ListViewState) : ListViewState :=
  { st with currentPage := 1, loading := true }

/-- The body of the `setTimeout` inside `handleSearch`. -/
def handleSearchTimeout (st : ListViewState) : ListViewState :=
  { st with loading := false }

/-- The `handleReset`: clears the form and sets `currentPage` to 1. -/
def handleReset (st : ListViewState) : ListViewState :=
  { st with searchForm := { name := "", status := "" }, currentPage := 1 }

/-- The `handleRefresh`: sets `loading` to true. -/
def handleRefresh (st : ListViewState) : ListViewState :=
  { st with loading := true }

/-- The body of the `setTimeout` inside `handleRefresh`: clears `loading`
and shows the success message. -/
def handleRefreshTimeout (st : ListViewState) : ListViewState × List Effect :=
  ({ st with loading := false }, [Effect.success "数据已刷新"])

/-- The `handleSelectionChange`: the table widget's selection-change event
replaces the whole tracked set. -/
def handleSelectionChange (st : ListViewState) (selection : List ClusterInfo) :
    ListViewState :=
  { st with selectedRows := selection }

/-- The `handleBatchDelete`: warns and returns when the selection is empty;
otherwise opens the confirm dialog and, when the user confirms, shows the
simulated success message.  No state is mutated on any path. -/
def handleBatchDelete (st : ListViewState) (userConfirms : Bool) :
    ListViewState × List Effect :=
  if st.selectedRows.length = 0 then
    (st, [Effect.warning "请选择要删除的数据"])
  else
    let confirmMsg :=
      "确定要删除选中的 " ++ toString st.selectedRows.length ++ " 个集群吗？"
    if userConfirms then
      (st, [Effect.confirm confirmMsg, Effect.success "批量删除成功（模拟）"])
    else
      (st, [Effect.confirm confirmMsg])

/-- A list-view state sitting on page 3 with no filters. -/
def pageThreeState : ListViewState :=
  { searchForm := { name := "", status := "" }, currentPage := 3,
    pageSize := 10, loading := false, selectedRows := [] }

/-- A list-view state with an empty selection. -/
def emptySelState : ListViewState :=
  { searchForm := { name := "", status := "" }, currentPage := 1,
    pageSize := 10, loading := false, selectedRows := [] }

/-- A list-view state with one selected row. -/
def oneSelState : ListViewState :=
  { searchForm := { name := "", status := "" }, currentPage := 1,
    pageSize := 10, loading := false, selectedRows := [sampleCluster] }

end ClusterList

/-- C3 counterexample: selecting a status in the dropdown changes the filter
criteria (the `v-model` binding, with no `@change` handler on the
`el-select`), yet `currentPage` stays at 3 — the next visible page is derived
with page 3, not page 1. -/
theorem ClusterList.filter_change_without_page_reset :
    (ClusterList.setStatusFilter ClusterList.pageThreeState "running").searchForm ≠
      ClusterList.pageThreeState.searchForm ∧
    (ClusterList.setStatusFilter ClusterList.pageThreeState "running").currentPage = 3 ∧
    ClusterList.pageThreeState.currentPage = 3 := by
  refine ⟨by decide, rfl, rfl⟩

/-- C3 amended: the explicit search action (`handleSearch`, bound to the
search button and to Enter in the name input) and the reset action set
`currentPage` to 1, so the page derived next is the first slice of the
filtered list; direct `v-model` mutation of the criteria does not reset the
page. -/
theorem ClusterList.handleSearch_resets_page (st : ClusterList.ListViewState)
    (mockClusters : List ClusterInfo) :
    (ClusterList.handleSearch st).currentPage = 1 ∧
    (ClusterList.handleReset st).currentPage = 1 ∧
    ClusterList.tableData mockClusters (ClusterList.handleSearch st).searchForm
        (ClusterList.handleSearch st).currentPage
        (ClusterList.handleSearch st).pageSize =
      (ClusterList.filteredData mockClusters st.searchForm).take st.pageSize := by
  refine ⟨rfl, rfl, ?_⟩
  simp [ClusterList.tableData, ClusterList.handleSearch]

/-- C4: batch delete with an empty selection short-circuits: exactly one
warning is surfaced, no confirm dialog and no backing delete call appear in
the effects, and the state (selection included) is unchanged. -/
theorem ClusterList.handleBatchDelete_empty (st : ClusterList.ListViewState)
    (userConfirms : Bool) (h : st.selectedRows = []) :
    ClusterList.handleBatchDelete st userConfirms =
      (st, [ClusterList.Effect.warning "请选择要删除的数据"]) ∧
    (∀ e ∈ (ClusterList.handleBatchDelete st userConfirms).2,
        (∀ m, e ≠ ClusterList.Effect.confirm m) ∧
        (∀ i, e ≠ ClusterList.Effect.deleteCall i)) ∧
    (ClusterList.handleBatchDelete st userConfirms).1 = st := by
  have hlen : st.selectedRows.length = 0 := by simp [h]
  refine ⟨by simp [ClusterList.handleBatchDelete, hlen], ?_,
    by simp [ClusterList.handleBatchDelete, hlen]⟩
  intro e he
  simp [ClusterList.handleBatchDelete, hlen] at he
  subst he
  exact ⟨fun m => by simp, fun i => by simp⟩

/-- Witness for `ClusterList.handleBatchDelete_empty` at a concrete state. -/
theorem ClusterList.handleBatchDelete_empty_witness :
    ClusterList.handleBatchDelete ClusterList.emptySelState true =
      (ClusterList.emptySelState,
        [ClusterList.Effect.warning "请选择要删除的数据"]) :=
  (ClusterList.handleBatchDelete_empty ClusterList.emptySelState true rfl).1

/-- C5 counterexample: with one selected row, a confirmed (hence successful,
simulated) batch delete emits the confirm dialog and the success message but
leaves the selection count at 1, not 0. -/
theorem ClusterList.batchDelete_not_cleared :
    (ClusterList.handleBatchDelete ClusterList.oneSelState true).2 =
      [ClusterList.Effect.confirm "确定要删除选中的 1 个集群吗？",
       ClusterList.Effect.success "批量删除成功（模拟）"] ∧
    (ClusterList.handleBatchDelete ClusterList.oneSelState true).1.selectedRows.length = 1 ∧
    (ClusterList.handleBatchDelete ClusterList.oneSelState true).1.selectedRows.length ≠ 0 := by
  refine ⟨rfl, rfl, by decide⟩

/-- C5 amended: after a confirmed batch delete the Selection Tracker is NOT
cleared — the selection set is unchanged; it only becomes empty when the
table widget later emits a selection-change event with an empty list. -/
theorem ClusterList.batchDelete_selection_unchanged (st : ClusterList.ListViewState)
    (h : st.selectedRows ≠ []) :
    (ClusterList.handleBatchDelete st true).1.selectedRows = st.selectedRows ∧
    (ClusterList.handleSelectionChange
        (ClusterList.handleBatchDelete st true).1 []).selectedRows.length = 0 := by
  have hlen : st.selectedRows.length ≠ 0 := by simpa using h
  constructor
  · simp [ClusterList.handleBatchDelete, hlen]
  · simp [ClusterList.handleSelectionChange]

/-- Witness for `ClusterList.batchDelete_selection_unchanged` at a concrete
state with one selected row. -/
theorem ClusterList.batchDelete_selection_unchanged_witness :
    (ClusterList.handleBatchDelete ClusterList.oneSelState true).1.selectedRows =
      ClusterList.oneSelState.selectedRows ∧
    (ClusterList.handleSelectionChange
        (ClusterList.handleBatchDelete ClusterList.oneSelState true).1
        []).selectedRows.length = 0 :=
  ClusterList.batchDelete_selection_unchanged ClusterList.oneSelState
    (List.cons_ne_nil sampleCluster [])

namespace ClusterDetail

/-- The global mock collections the detail view imports from `mock/data`
(their concrete contents are irrelevant to the properties below, so they are
parameters of the embedding). -/
structure MockEnv where
  mockClusters : List ClusterInfo
  mockNodes : List NodeInfo
  mockPods : List PodInfo
  mockEvents : List EventInfo

/-- The `cluster` computed of the detail view:
`mockClusters.find(c => c.id === route.params.id)` — `undefined` when no
record matches is `Option.none`. -/
def cluster (env : MockEnv) (routeId : String) : Option ClusterInfo :=
  env.mockClusters.find? (fun c => c.id == routeId)

/-- The data each tab of the detail template binds: the basic-info tab shows
the resolved record, while the nodes, pods and events tabs bind the global
`mockNodes`, `mockPods` and `mockEvents` collections directly. -/
structure DetailTabs where
  basicInfo : ClusterInfo
  nodesTab : List NodeInfo
  podsTab : List PodInfo
  eventsTab : List EventInfo

/-- What the detail template renders: the `v-if="!cluster"` branch is an
`el-result` whose `#extra` slot holds the recovery navigation targets (one
button, `handleBack`, pushing `/cluster`); otherwise the tabbed view. -/
inductive DetailRender where
  | notFound (title subTitle : String) (recoveryNav : List String)
  | found (c : ClusterInfo) (tabs : DetailTabs)

/-- The route `handleBack` pushes. -/
def backRoute : String := "/cluster"

/-- The detail view as a function of the mock environment and the route
parameter. -/
def renderDetail (env : MockEnv) (routeId : String) : DetailRender :=
  match cluster env routeId with
  | none => DetailRender.notFound "集群不存在" "未找到对应的集群信息" [backRoute]
  | some c =>
      DetailRender.found c
        { basicInfo := c, nodesTab := env.mockNodes, podsTab := env.mockPods,
          eventsTab := env.mockEvents }

end ClusterDetail

/-- C6: for an identifier matching no record, the resolver yields `none`
(never throws, never a normal record view) and the rendered state is the
dedicated not-found result whose recovery actions are exactly the single
navigation back to the list. -/
theorem ClusterDetail.cluster_not_found (env : ClusterDetail.MockEnv)
    (routeId : String) (h : ∀ c ∈ env.mockClusters, c.id ≠ routeId) :
    ClusterDetail.cluster env routeId = none ∧
    ClusterDetail.renderDetail env routeId =
      ClusterDetail.DetailRender.notFound "集群不存在" "未找到对应的集群信息"
        [ClusterDetail.backRoute] ∧
    [ClusterDetail.backRoute].length = 1 := by
  have hfind : ClusterDetail.cluster env routeId = none := by
    unfold ClusterDetail.cluster
    rw [List.find?_eq_none]
    intro c hc
    simpa using h c hc
  refine ⟨hfind, ?_, rfl⟩
  unfold ClusterDetail.renderDetail
  rw [hfind]

/-- A second sample record with a different identifier. -/
def sampleCluster2 : ClusterInfo :=
  { id := "c-2", name := "staging-cluster-02", version := "v1.27.6",
    status := "stopped", nodeCount := 2, podCount := 4,
    «namespace» := "staging", apiServer := "https://10.0.0.2:6443",
    createdAt := "2024-02-02 00:00:00", cpuUsage := 12.0, memoryUsage := 30.5,
    diskUsage := 22.1, labels := [("env", "staging")], description := "sample2" }

/-- A sample node, pod and event for concrete instantiations. -/
def sampleNode : NodeInfo :=
  { name := "node-1", status := "Ready", role := "master", ip := "10.0.0.11",
    os := "linux", kubeletVersion := "v1.28.2", cpu := "8C", memory := "32Gi" }

def samplePod : PodInfo :=
  { name := "pod-1", «namespace» := "default", status := "Running",
    restarts := 0, age := "3d", node := "node-1", ip := "172.16.0.8" }

def sampleEvent : EventInfo :=
  { type := "Normal", reason := "Started", message := "Started container",
    timestamp := "2024-03-01 10:00:00" }

/-- A concrete mock environment with two clusters. -/
def sampleEnv : ClusterDetail.MockEnv :=
  { mockClusters := [sampleCluster, sampleCluster2],
    mockNodes := [sampleNode], mockPods := [samplePod],
    mockEvents := [sampleEvent] }

/-- Witness for `ClusterDetail.cluster_not_found`: an identifier absent from
the concrete collection resolves to `none` and renders the not-found state. -/
theorem ClusterDetail.cluster_not_found_witness :
    ClusterDetail.cluster sampleEnv "missing-id" = none ∧
    ClusterDetail.renderDetail sampleEnv "missing-id" =
      ClusterDetail.DetailRender.notFound "集群不存在" "未找到对应的集群信息"
        [ClusterDetail.backRoute] ∧
    [ClusterDetail.backRoute].length = 1 :=
  ClusterDetail.cluster_not_found sampleEnv "missing-id"
    (by intro c hc; simp [sampleEnv, sampleCluster, sampleCluster2] at hc
        rcases hc with h | h <;> subst h <;> decide)

/-- C9: for any two identifiers the detail view resolves successfully, the
nodes, pods and events tabs bind the same three fixed global collections
(`mockNodes`, `mockPods`, `mockEvents`); the sub-views do not depend on which
record was resolved. -/
theorem ClusterDetail.tabs_independent_of_record (env : ClusterDetail.MockEnv)
    (i1 i2 : String) (c1 c2 : ClusterInfo) (t1 t2 : ClusterDetail.DetailTabs)
    (h1 : ClusterDetail.renderDetail env i1 = ClusterDetail.DetailRender.found c1 t1)
    (h2 : ClusterDetail.renderDetail env i2 = ClusterDetail.DetailRender.found c2 t2) :
    t1.nodesTab = env.mockNodes ∧ t1.podsTab = env.mockPods ∧
    t1.eventsTab = env.mockEvents ∧
    t1.nodesTab = t2.nodesTab ∧ t1.podsTab = t2.podsTab ∧
    t1.eventsTab = t2.eventsTab := by
  unfold ClusterDetail.renderDetail at h1 h2
  rcases hc1 : ClusterDetail.cluster env i1 with _ | a1 <;> rw [hc1] at h1
  · exact absurd h1 (by simp)
  rcases hc2 : ClusterDetail.cluster env i2 with _ | a2 <;> rw [hc2] at h2
  · exact absurd h2 (by simp)
  cases h1; cases h2
  exact ⟨rfl, rfl, rfl, rfl, rfl, rfl⟩

/-- The tab data built for `sampleCluster` and `sampleCluster2` in
`sampleEnv`. -/
def sampleTabs1 : ClusterDetail.DetailTabs :=
  { basicInfo := sampleCluster, nodesTab := [sampleNode],
    podsTab := [samplePod], eventsTab := [sampleEvent] }

def sampleTabs2 : ClusterDetail.DetailTabs :=
  { basicInfo := sampleCluster2, nodesTab := [sampleNode],
    podsTab := [samplePod], eventsTab := [sampleEvent] }

/-- Witness for `ClusterDetail.tabs_independent_of_record` at two concrete
resolved identifiers. -/
theorem ClusterDetail.tabs_independent_of_record_witness :
    sampleTabs1.nodesTab = sampleEnv.mockNodes ∧
    sampleTabs1.podsTab = sampleEnv.mockPods ∧
    sampleTabs1.eventsTab = sampleEnv.mockEvents ∧
    sampleTabs1.nodesTab = sampleTabs2.nodesTab ∧
    sampleTabs1.podsTab = sampleTabs2.podsTab ∧
    sampleTabs1.eventsTab = sampleTabs2.eventsTab :=
  ClusterDetail.tabs_independent_of_record sampleEnv "c-1" "c-2"
    sampleCluster sampleCluster2 sampleTabs1 sampleTabs2 rfl rfl

/-- The lookup table of `getStatusType` in the cluster list view. -/
def statusTypeMapList : List (String × String) :=
  [("running", "success"), ("stopped", "info"), ("error", "danger"),
   ("pending", "warning")]

/-- The lookup table of `getStatusType` in the cluster detail view (note the
keys `Succeeded` and `worker` are mapped to the empty tag type `''`). -/
def statusTypeMapDetail : List (String × String) :=
  [("running", "success"), ("stopped", "info"), ("error", "danger"),
   ("pending", "warning"), ("Running", "success"), ("Ready", "success"),
   ("NotReady", "danger"), ("Pending", "warning"), ("Failed", "danger"),
   ("CrashLoopBackOff", "danger"), ("Succeeded", ""), ("master", "warning"),
   ("worker", "")]

/-- JavaScript `v || fallback` on an optional string: `undefined` and the
empty string are both falsy. -/
def jsStringOr (v : Option String) (fallback : String) : String :=
  match v with
  | some s => if s = "" then fallback else s
  | none => fallback

/-- The `getStatusType` of the cluster list view: `map[status] || 'info'`. -/
def getStatusType (status : String) : String :=
  jsStringOr (statusTypeMapList.lookup status) "info"

/-- The `getStatusType` of the cluster detail view: `map[status] || 'info'` over
the larger table. -/
def getStatusTypeDetail (status : String) : String :=
  jsStringOr (statusTypeMapDetail.lookup status) "info"

/-- The `getStatusLabel` of the cluster list view: `map[status] || status`
(Chinese label for the four known statuses, the input itself otherwise;
every key maps to a non-empty string, so JS `||` only falls back on missing
keys here). -/
def statusLabelMap : List (String × String) :=
  [("running", "运行中"), ("stopped", "已停止"), ("error", "错误"),
   ("pending", "等待中")]

def getStatusLabel (status : String) : String :=
  jsStringOr (statusLabelMap.lookup status) status

/-- Every value stored in a string-keyed table is among the mapped values. -/
theorem lookup_value_mem {l : List (String × String)} {k v : String}
    (h : l.lookup k = some v) : v ∈ l.map Prod.snd := by
  induction l with
  | nil => simp [List.lookup] at h
  | cons p t ih =>
      obtain ⟨k', w⟩ := p
      simp only [List.lookup] at h
      split at h
      · injection h with h
        simp [h]
      · simp [ih h]

/-- Every tag type stored in the two status lookup tables is one of the five
declared tag types. -/
theorem statusTypeMap_values_ok :
    (∀ p ∈ statusTypeMapList, p.2 ∈ ["", "success", "info", "warning", "danger"]) ∧
    (∀ p ∈ statusTypeMapDetail, p.2 ∈ ["", "success", "info", "warning", "danger"]) := by
  decide

/-- C10 counterexample: `Succeeded` IS a key of the detail view's lookup
table, mapped to the tag type `''`, yet `getStatusType` returns the fallback
`'info'` for it (JS `||` treats the stored empty string as falsy), so the
function does not return the mapped tag type for every key. -/
theorem getStatusTypeDetail_succeeded_fallback :
    statusTypeMapDetail.lookup "Succeeded" = some "" ∧
    getStatusTypeDetail "Succeeded" = "info" ∧
    ("info" : String) ≠ "" := by
  refine ⟨by decide, by decide, by decide⟩

/-- C10 amended: both `getStatusType` functions are total over arbitrary
strings and never yield `undefined` (the result is always one of the five
tag types); a key mapped to a NON-EMPTY tag type yields that mapped value,
and every other string — unknown keys, the empty string, and the keys
`Succeeded`/`worker` whose stored value is the falsy `''` — yields the
fallback `'info'`. -/
theorem getStatusType_total (s v : String) :
    (statusTypeMapList.lookup s = some v → v ≠ "" → getStatusType s = v) ∧
    (statusTypeMapList.lookup s = none → getStatusType s = "info") ∧
    (statusTypeMapDetail.lookup s = some v → v ≠ "" →
      getStatusTypeDetail s = v) ∧
    (statusTypeMapDetail.lookup s = some "" ∨
        statusTypeMapDetail.lookup s = none →
      getStatusTypeDetail s = "info") ∧
    getStatusType s ∈ ["", "success", "info", "warning", "danger"] ∧
    getStatusTypeDetail s ∈ ["", "success", "info", "warning", "danger"] := by
  refine ⟨?_, ?_, ?_, ?_, ?_, ?_⟩
  · intro h hv
    simp [getStatusType, jsStringOr, h, hv]
  · intro h
    simp [getStatusType, jsStringOr, h]
  · intro h hv
    simp [getStatusTypeDetail, jsStringOr, h, hv]
  · rintro (h | h) <;> simp [getStatusTypeDetail, jsStringOr, h]
  · rcases hl : statusTypeMapList.lookup s with _ | v'
    · simp [getStatusType, jsStringOr, hl]
    · have hv' := lookup_value_mem hl
      by_cases he : v' = ""
      · simp [getStatusType, jsStringOr, hl, he]
      · have hres : getStatusType s = v' := by
          simp [getStatusType, jsStringOr, hl, he]
        rcases List.mem_map.mp hv' with ⟨p, hp, hpv⟩
        rw [hres, ← hpv]
        exact statusTypeMap_values_ok.1 p hp
  · rcases hl : statusTypeMapDetail.lookup s with _ | v'
    · simp [getStatusTypeDetail, jsStringOr, hl]
    · have hv' := lookup_value_mem hl
      by_cases he : v' = ""
      · simp [getStatusTypeDetail, jsStringOr, hl, he]
      · have hres : getStatusTypeDetail s = v' := by
          simp [getStatusTypeDetail, jsStringOr, hl, he]
        rcases List.mem_map.mp hv' with ⟨p, hp, hpv⟩
        rw [hres, ← hpv]
        exact statusTypeMap_values_ok.2 p hp

/-- Witness for `getStatusType_total` at concrete inputs: a known key with a
non-empty tag, a detail-view key, and an unknown key. -/
theorem getStatusType_total_witness :
    getStatusType "running" = "success" ∧
    getStatusTypeDetail "CrashLoopBackOff" = "danger" ∧
    getStatusTypeDetail "no-such-status" = "info" :=
  ⟨(getStatusType_total "running" "success").1 (by decide) (by decide),
   (getStatusType_total "CrashLoopBackOff" "danger").2.2.1 (by decide) (by decide),
   (getStatusType_total "no-such-status" "x").2.2.2.1 (Or.inr (by decide))⟩

namespace Dashboard

/-- The `statistics` ref of the dashboard. -/
structure Statistics where
  totalClusters : Nat
  runningClusters : Nat
  totalNodes : Nat
  totalPods : Nat
  cpuUsage : Float
  memoryUsage : Float
  diskUsage : Float
  networkTraffic : Float

/-- The dashboard's reactive state: `loading`, `autoRefresh`, `statistics`
and the module-level `refreshTimer` variable (a nullable interval handle). -/
structure DashState where
  loading : Bool
  autoRefresh : Bool
  statistics : Statistics
  refreshTimer : Option Nat

/-- Outcome of the awaited body of `refreshData`: the simulated fetch either
resolves — carrying the four freshly generated utilization numbers — or the
body throws before the assignments run. -/
inductive RefreshOutcome where
  | resolved (cpu mem disk net : Float)
  | rejected

/-- The `refreshData`, first half: `loading.value = true` runs before the `await`
suspension begins. -/
def refreshDataStart (st : DashState) : DashState :=
  { st with loading := true }

/-- The `refreshData`, second half: when the body resolves the statistics are
updated (spreading the old record), when it throws nothing is updated; the
`finally` block sets `loading.value = false` on both paths. -/
def refreshDataFinish (st : DashState) (o : RefreshOutcome) : DashState :=
  let st' :=
    match o with
    | RefreshOutcome.resolved cpu mem disk net =>
        { st with
            statistics := { st.statistics with
              cpuUsage := cpu
              memoryUsage := mem
              diskUsage := disk
              networkTraffic := net } }
    | RefreshOutcome.rejected => st
  { st' with loading := false }

/-- The world of interval timers: a counter of ids handed out so far and the
list of ids whose tick-handler is still scheduled. -/
structure TimerWorld where
  nextId : Nat
  active : List Nat
deriving DecidableEq

/-- The `setInterval`: registers a new tick-handler and returns its handle. -/
def setIntervalW (w : TimerWorld) : TimerWorld × Nat :=
  ({ nextId := w.nextId + 1, active := w.active ++ [w.nextId] }, w.nextId)

/-- The `clearInterval(id)`: deregisters that handle's tick-handler. -/
def clearIntervalW (w : TimerWorld) (id : Nat) : TimerWorld :=
  { w with active := w.active.erase id }

/-- The `handleAutoRefreshChange(val)`: on `true`, `refreshTimer =
setInterval(refreshData, 30000)` — with NO prior `clearInterval`; on `false`,
`clearInterval(refreshTimer)` and `refreshTimer = null` when a handle is
stored. -/
def handleAutoRefreshChange (refreshTimer : Option Nat) (w : TimerWorld)
    (val : Bool) : Option Nat × TimerWorld :=
  if val then
    let p := setIntervalW w
    (some p.2, p.1)
  else
    match refreshTimer with
    | some id => (none, clearIntervalW w id)
    | none => (refreshTimer, w)

/-- The timers the component believes it owns: at most the one stored in
`refreshTimer`. -/
def timersOf (refreshTimer : Option Nat) : List Nat :=
  match refreshTimer with
  | some id => [id]
  | none => []

/-- A fresh timer world. -/
def w0 : TimerWorld := { nextId := 0, active := [] }

end Dashboard

/-- C7 counterexample: starting from a fresh world with no stored handle,
invoking the auto-refresh enable twice in a row leaves TWO active interval
timers (the first handle is overwritten, never cleared), so two tick-handlers
fire per interval — not at most one. -/
theorem Dashboard.double_enable_leaks_timer :
    (Dashboard.handleAutoRefreshChange
        (Dashboard.handleAutoRefreshChange none Dashboard.w0 true).1
        (Dashboard.handleAutoRefreshChange none Dashboard.w0 true).2
        true).2.active = [0, 1] ∧
    (Dashboard.handleAutoRefreshChange
        (Dashboard.handleAutoRefreshChange none Dashboard.w0 true).1
        (Dashboard.handleAutoRefreshChange none Dashboard.w0 true).2
        true).2.active.length = 2 := by
  refine ⟨rfl, rfl⟩

/-- C7 amended: toggling off cancels the pending timer, and toggling on
creates a new timer WITHOUT clearing any existing one; hence along the
alternating on/off sequences the UI switch can produce (its change event only
fires when the value flips, so an enable always starts from a cleared
handle), the stored handle exactly tracks the active timers and at most one
timer is ever active — but two consecutive enables are not guarded against. -/
theorem Dashboard.autoRefresh_alternating_invariant
    (rt : Option Nat) (w : Dashboard.TimerWorld) (val : Bool)
    (hinv : w.active = Dashboard.timersOf rt)
    (henable : val = true → rt = none) :
    (Dashboard.handleAutoRefreshChange rt w val).2.active =
      Dashboard.timersOf (Dashboard.handleAutoRefreshChange rt w val).1 ∧
    (Dashboard.handleAutoRefreshChange rt w val).2.active.length ≤ 1 := by
  cases val
  · cases rt with
    | none =>
        simp [Dashboard.handleAutoRefreshChange, hinv, Dashboard.timersOf]
    | some id =>
        have : w.active = [id] := hinv
        simp [Dashboard.handleAutoRefreshChange, Dashboard.clearIntervalW,
          this, Dashboard.timersOf, List.erase_cons]
  · have hrt : rt = none := henable rfl
    subst hrt
    have : w.active = [] := hinv
    simp [Dashboard.handleAutoRefreshChange, Dashboard.setIntervalW, this,
      Dashboard.timersOf]

/-- Witness for `Dashboard.autoRefresh_alternating_invariant`: enabling from
a fresh world yields exactly one active timer. -/
theorem Dashboard.autoRefresh_alternating_invariant_witness :
    (Dashboard.handleAutoRefreshChange none Dashboard.w0 true).2.active =
      Dashboard.timersOf (Dashboard.handleAutoRefreshChange none Dashboard.w0 true).1 ∧
    (Dashboard.handleAutoRefreshChange none Dashboard.w0 true).2.active.length ≤ 1 :=
  Dashboard.autoRefresh_alternating_invariant none Dashboard.w0 true rfl
    (fun _ => rfl)

/-- C8: every data-refresh operation sets the loading flag before its
suspension and clears it afterwards on both the resolve and the reject path
(`try/finally` in the dashboard's `refreshData`, the timeout callback in the
list view's `handleRefresh`), so no outcome leaves `loading` stuck at
`true`. -/
theorem loading_flag_always_reset (st : Dashboard.DashState)
    (lst : ClusterList.ListViewState) (o : Dashboard.RefreshOutcome) :
    (Dashboard.refreshDataStart st).loading = true ∧
    (Dashboard.refreshDataFinish (Dashboard.refreshDataStart st) o).loading = false ∧
    (Dashboard.refreshDataFinish st o).loading = false ∧
    (ClusterList.handleRefresh lst).loading = true ∧
    (ClusterList.handleRefreshTimeout (ClusterList.handleRefresh lst)).1.loading = false ∧
    (ClusterList.handleSearch lst).loading = true ∧
    (ClusterList.handleSearchTimeout (ClusterList.handleSearch lst)).loading = false := by
  refine ⟨rfl, ?_, ?_, rfl, rfl, rfl, rfl⟩ <;>
    cases o <;> rfl
